import Mathlib

/-!
Verification of the CatBoost quantized-pool streaming loader
(catboost/libs/quantized_pool/loader.cpp): chunk gathering and address
sorting, the sequential chunk evictor, the per-column-type dispatcher,
and the loader orchestration, shallowly embedded as executable Lean
definitions.  Memory addresses are modelled as natural numbers (byte
offsets into the backing mapping), mirroring the pointer arithmetic of
the source; the null pointer is the offset 0, as in the source where
Data_ is initialised to nullptr.
-/

deriving instance DecidableEq for Except

/-- Semantic column types from catboost/libs/column_description/column.h,
exactly the constructors enumerated by the switch in
TCBQuantizedDataLoader::AddChunk. -/
inductive EColumn where
  | Num
  | Categ
  | Label
  | Auxiliary
  | Baseline
  | Weight
  | SampleId
  | GroupId
  | GroupWeight
  | SubgroupId
  | Timestamp
  | Sparse
  | Prediction
  | Text
deriving DecidableEq, Repr

/-- One chunk of a column: the byte-range payload of Chunk->Quants()
(start address and size in bytes) together with the DocumentOffset and
the BitsPerDocument value of the TChunkDescription. -/
structure TChunkDescription where
  addr : Nat
  size : Nat
  documentOffset : Nat
  bitsPerDocument : Nat
deriving DecidableEq, Repr

/-- A gathered chunk record: the chunk description plus the column index
and the local slot index it belongs to (struct TChunkRef in loader.cpp). -/
structure TChunkRef where
  description : TChunkDescription
  columnIndex : Nat
  localIndex : Nat
deriving DecidableEq, Repr

/-- State of TSequentialChunkEvictor: the eviction threshold, the
one-shot eviction flag, and the visited byte range (base address Data_
and length Size_).  Data_ = 0 models the nullptr initial state. -/
structure TSequentialChunkEvictor where
  minSizeInBytesToEvict : Nat
  evicted : Bool
  data : Nat
  size : Nat
deriving DecidableEq, Repr

/-- The freshly constructed evictor: TSequentialChunkEvictor(minSize)
with Evicted_ = false, Data_ = nullptr, Size_ = 0. -/
def TSequentialChunkEvictor.initial (minSizeInBytesToEvict : Nat) : TSequentialChunkEvictor :=
  { minSizeInBytesToEvict := minSizeInBytesToEvict, evicted := false, data := 0, size := 0 }

/-- TSequentialChunkEvictor::Push.  The CB_ENSURE(Data_ + Size_ <= data)
failure is modelled as an error value (the exception aborts the whole
load, so the post-throw state is never observed).  On success the
Y_DEFER clears the one-shot flag, and the visited range is updated by
the three branches of the source: first chunk (Data_ is null), range
already evicted (restart at the old visited end), or plain extension. -/
def TSequentialChunkEvictor.push (s : TSequentialChunkEvictor) (chunk : TChunkRef) :
    Except String TSequentialChunkEvictor :=
  let data := chunk.description.addr
  let size := chunk.description.size
  if s.data + s.size ≤ data then
    if s.data = 0 then
      Except.ok { s with evicted := false, data := data, size := size }
    else if s.evicted then
      let nextData := s.data + s.size
      Except.ok { s with evicted := false, data := nextData, size := data - nextData + size }
    else
      Except.ok { s with evicted := false, size := data - s.data + size }
  else
    Except.error "Data_ + Size_ <= data"

/-- TSequentialChunkEvictor::MaybeEvict.  Returns the new state and,
when the advisory branch is taken, the byte range handed to
MadviseEvict (the advisory is best effort: a MadviseEvict failure is
caught and logged, and Evicted_ is set regardless, so the model records
the attempted range).  The guard mirrors
Evicted_ || !force && Size_ < MinSizeInBytesToEvict_. -/
def TSequentialChunkEvictor.maybeEvict (s : TSequentialChunkEvictor) (force : Bool) :
    TSequentialChunkEvictor × Option (Nat × Nat) :=
  if s.evicted || (!force && decide (s.size < s.minSizeInBytesToEvict)) then
    (s, none)
  else
    ({ s with evicted := true }, some (s.data, s.size))

/-- A sequence of Push calls, stopping at the first failure. -/
def TSequentialChunkEvictor.pushSeq (s : TSequentialChunkEvictor) :
    List TChunkRef → Except String TSequentialChunkEvictor
  | [] => Except.ok s
  | c :: cs =>
    match s.push c with
    | Except.ok s' => s'.pushSeq cs
    | Except.error e => Except.error e

/-- The parsed pool handed to the loader (NCB::TQuantizedPool as used by
loader.cpp).  ColumnIndexToLocalIndex is an association list, Chunks is
indexed by local slot, ColumnTypes by local slot.  ColumnsDump holds the
in-memory column blobs (its emptiness selects mapped-file mode).  The
last three fields stand for data obtained through helpers declared in
quantized.h whose implementation is outside this file:
IgnoredFlatIndices for GetIgnoredFlatIndices,
ColumnIndexToFlatIndex for GetColumnIndexToFlatIndexMap and
ColumnIndexToBaselineIndex for GetColumnIndexToBaselineIndexMap;
they are modelled from the spec as plain lookup tables attached to the
pool. -/
structure TQuantizedPool where
  documentCount : Nat
  columnIndexToLocalIndex : List (Nat × Nat)
  chunks : List (List TChunkDescription)
  columnTypes : List EColumn
  stringDocIdLocalIndex : Nat
  stringGroupIdLocalIndex : Nat
  stringSubgroupIdLocalIndex : Nat
  hasStringColumns : Bool
  columnsDump : List Nat
  ignoredFlatIndices : List Nat
  columnIndexToFlatIndex : List (Nat × Nat)
  columnIndexToBaselineIndex : List (Nat × Nat)
deriving DecidableEq, Repr

/-- The sentinel local index static_cast<ui32>(-1) marking an absent
string pseudo-slot. -/
def absentLocalIndex : Nat := 4294967295

/-- TMap::FindPtr on an association list: the mapped value when the key
is present, none otherwise. -/
def findPtr (m : List (Nat × Nat)) (k : Nat) : Option Nat :=
  match m with
  | [] => none
  | p :: rest => if p.1 = k then some p.2 else findPtr rest k

/-- The comparator of GatherAndSortChunks: ascending start address of
the chunk's byte-range payload. -/
def chunkRefLE (a b : TChunkRef) : Prop :=
  a.description.addr ≤ b.description.addr

instance : DecidableRel chunkRefLE := fun x y => Nat.decLe x.description.addr y.description.addr

instance : IsTotal TChunkRef chunkRefLE := ⟨fun x y => Nat.le_total x.description.addr y.description.addr⟩

instance : IsTrans TChunkRef chunkRefLE := ⟨fun _ _ _ => Nat.le_trans⟩

/-- The chunk records contributed by the real columns: for every entry
of ColumnIndexToLocalIndex, one record per chunk of that slot. -/
def realChunkRefs (pool : TQuantizedPool) : List TChunkRef :=
  pool.columnIndexToLocalIndex.flatMap fun p =>
    (pool.chunks.getD p.2 []).map fun d => ⟨d, p.1, p.2⟩

/-- The chunk records contributed by the string-identifier pseudo-slots:
for each of the three fake indices that is not the absent sentinel, one
record per chunk of that slot, with column index 0. -/
def fakeChunkRefs (pool : TQuantizedPool) : List TChunkRef :=
  [pool.stringDocIdLocalIndex, pool.stringGroupIdLocalIndex,
    pool.stringSubgroupIdLocalIndex].flatMap fun fakeIdx =>
    if fakeIdx = absentLocalIndex then []
    else (pool.chunks.getD fakeIdx []).map fun d => ⟨d, 0, fakeIdx⟩

/-- GatherAndSortChunks: gather the real and pseudo-slot chunk records
and sort them in ascending order of the chunks' start addresses. -/
def gatherAndSortChunks (pool : TQuantizedPool) : List TChunkRef :=
  List.insertionSort chunkRefLE (realChunkRefs pool ++ fakeChunkRefs pool)

/-- One call on the IQuantizedFeaturesDataVisitor consumer.  Payloads
are recorded as the byte range (address, size) handed over; the
Baseline case additionally performs a value-level double-to-float
narrowing of the payload in the source (AssignUnaligned), which does
not change which bytes the part was decoded from. -/
inductive TVisitorEvent where
  | start (objectCount : Nat)
  | addFloatFeaturePart (flatFeatureIdx documentOffset bitsPerDocument addr size : Nat)
  | addTargetPart (documentOffset addr size : Nat)
  | addBaselinePart (documentOffset baselineIdx addr size : Nat)
  | addWeightPart (documentOffset addr size : Nat)
  | addGroupWeightPart (documentOffset addr size : Nat)
  | addGroupIdPart (documentOffset addr size : Nat)
  | addSubgroupIdPart (documentOffset addr size : Nat)
  | finish
deriving DecidableEq, Repr

/-- Error message of the streaming CB_ENSURE in
TCBQuantizedDataLoader::Do (types admitted at the dispatch point). -/
def expectedTypesMsg : String :=
  "Expected Num, Baseline, Label, Categ, Weight, GroupWeight, GroupId, or Subgroupid"

/-- Error message of the ythrow in the default branch of
TCBQuantizedDataLoader::AddChunk. -/
def unexpectedColumnTypeMsg : String := "Unexpected column type"

/-- Error marking the dereference of a null flatFeatureIdx pointer in
AddChunk (undefined behaviour in the source, modelled as a failure). -/
def nullFlatFeatureIdxMsg : String := "null dereference: flatFeatureIdx"

/-- Error marking the dereference of a null baselineIdx pointer in
AddChunk (undefined behaviour in the source, modelled as a failure). -/
def nullBaselineIdxMsg : String := "null dereference: baselineIdx"

/-- TCBQuantizedDataLoader::AddQuantizedFeatureChunk: deliver the raw
quants bytes unchanged at the chunk's document offset, tagged with the
flat feature index and the chunk's bits per document. -/
def addQuantizedFeatureChunk (chunk : TChunkDescription) (flatFeatureIdx : Nat) :
    TVisitorEvent :=
  TVisitorEvent.addFloatFeaturePart flatFeatureIdx chunk.documentOffset
    chunk.bitsPerDocument chunk.addr chunk.size

/-- TCBQuantizedDataLoader::AddChunk: the per-column-type dispatch.
Num dereferences flatFeatureIdx and Baseline dereferences baselineIdx
without a null check (modelled as an error value when absent); the
other five dispatchable types never read either index; every remaining
column type falls through to the ythrow. -/
def addChunk (chunk : TChunkDescription) (columnType : EColumn)
    (flatFeatureIdx baselineIdx : Option Nat) : Except String (List TVisitorEvent) :=
  match columnType with
  | EColumn.Num =>
    match flatFeatureIdx with
    | some i => Except.ok [addQuantizedFeatureChunk chunk i]
    | none => Except.error nullFlatFeatureIdxMsg
  | EColumn.Label =>
    Except.ok [TVisitorEvent.addTargetPart chunk.documentOffset chunk.addr chunk.size]
  | EColumn.Baseline =>
    match baselineIdx with
    | some b =>
      Except.ok [TVisitorEvent.addBaselinePart chunk.documentOffset b chunk.addr chunk.size]
    | none => Except.error nullBaselineIdxMsg
  | EColumn.Weight =>
    Except.ok [TVisitorEvent.addWeightPart chunk.documentOffset chunk.addr chunk.size]
  | EColumn.GroupWeight =>
    Except.ok [TVisitorEvent.addGroupWeightPart chunk.documentOffset chunk.addr chunk.size]
  | EColumn.GroupId =>
    Except.ok [TVisitorEvent.addGroupIdPart chunk.documentOffset chunk.addr chunk.size]
  | EColumn.SubgroupId =>
    Except.ok [TVisitorEvent.addSubgroupIdPart chunk.documentOffset chunk.addr chunk.size]
  | _ => Except.error unexpectedColumnTypeMsg

/-- The isStringColumn test of the streaming loop: HasStringColumns and
the local index equals one of the three string pseudo-slot indices. -/
def isStringColumnB (pool : TQuantizedPool) (localIdx : Nat) : Bool :=
  pool.hasStringColumns &&
    (localIdx == pool.stringDocIdLocalIndex ||
      localIdx == pool.stringGroupIdLocalIndex ||
      localIdx == pool.stringSubgroupIdLocalIndex)

/-- Modelled from the spec: ProcessIgnoredFeaturesList (implemented
outside this file) computes the IsFeatureIgnored bitset as the union of
the caller-supplied and pool-embedded ignored-feature lists, so the
bitset lookup is membership in the merged list. -/
def isFeatureIgnored (ignored : List Nat) (i : Nat) : Bool :=
  decide (i ∈ ignored)

/-- The guard flatFeatureIdx && IsFeatureIgnored[*flatFeatureIdx] of
the streaming loop: the chunk's column maps to a flat feature index and
that index is ignored. -/
def ignoredSkipB (pool : TQuantizedPool) (ignored : List Nat) (columnIdx : Nat) : Bool :=
  match findPtr pool.columnIndexToFlatIndex columnIdx with
  | some i => isFeatureIgnored ignored i
  | none => false

/-- The body of the streaming loop of TCBQuantizedDataLoader::Do for
one gathered chunk, without the evictor bookkeeping: skip string
pseudo-slot columns, skip legacy SampleId (DocId) columns, assert the
admitted column types, skip ignored features, then dispatch through
AddChunk.  ColumnTypes is indexed by the local slot (out-of-range
access is undefined behaviour in the source and never exercised here;
the default is arbitrary). -/
def processChunkRef (pool : TQuantizedPool) (ignored : List Nat) (r : TChunkRef) :
    Except String (List TVisitorEvent) :=
  if isStringColumnB pool r.localIndex then
    Except.ok []
  else
    let columnType := pool.columnTypes.getD r.localIndex EColumn.Auxiliary
    if columnType = EColumn.SampleId then
      Except.ok []
    else if ¬ (columnType = EColumn.Num ∨ columnType = EColumn.Baseline ∨
        columnType = EColumn.Label ∨ columnType = EColumn.Categ ∨
        columnType = EColumn.Weight ∨ columnType = EColumn.GroupWeight ∨
        columnType = EColumn.GroupId ∨ columnType = EColumn.SubgroupId) then
      Except.error expectedTypesMsg
    else if ignoredSkipB pool ignored r.columnIndex then
      Except.ok []
    else
      addChunk r.description columnType
        (findPtr pool.columnIndexToFlatIndex r.columnIndex)
        (findPtr pool.columnIndexToBaselineIndex r.columnIndex)

/-- One call made on the evictor during the streaming loop. -/
inductive TEvictorOp where
  | push (chunk : TChunkRef)
  | maybeEvictOp (force : Bool)
deriving DecidableEq, Repr

/-- Observable outcome of the streaming loop: the error that aborted it
(if any), the consumer calls made, the evictor calls made, and the byte
ranges handed to MadviseEvict. -/
structure TDoStepLog where
  error : Option String
  events : List TVisitorEvent
  evictorOps : List TEvictorOp
  advisories : List (Nat × Nat)
deriving DecidableEq, Repr

/-- The streaming loop of TCBQuantizedDataLoader::Do over the gathered
chunk list, threading the evictor state.  Per chunk: in mapped-file
mode (ColumnsDump empty) the chunk is pushed first (a push failure
aborts before the scope-exit guard is even registered); then the
Y_DEFER guarantees MaybeEvict(false) runs whether or not processing the
chunk fails; an error aborts the loop.  After the last chunk the
unconditional MaybeEvict(true) flush runs. -/
def doLoop (pool : TQuantizedPool) (ignored : List Nat) :
    List TChunkRef → TSequentialChunkEvictor → TDoStepLog
  | [], ev =>
    let fin := ev.maybeEvict true
    { error := none, events := [], evictorOps := [TEvictorOp.maybeEvictOp true],
      advisories := fin.2.toList }
  | r :: rs, ev =>
    if pool.columnsDump.isEmpty then
      match ev.push r with
      | Except.error e =>
        { error := some e, events := [], evictorOps := [TEvictorOp.push r], advisories := [] }
      | Except.ok ev1 =>
        match processChunkRef pool ignored r with
        | Except.error e =>
          let me := ev1.maybeEvict false
          { error := some e, events := [],
            evictorOps := [TEvictorOp.push r, TEvictorOp.maybeEvictOp false],
            advisories := me.2.toList }
        | Except.ok evs =>
          let me := ev1.maybeEvict false
          let rest := doLoop pool ignored rs me.1
          { error := rest.error, events := evs ++ rest.events,
            evictorOps := TEvictorOp.push r :: TEvictorOp.maybeEvictOp false :: rest.evictorOps,
            advisories := me.2.toList ++ rest.advisories }
    else
      match processChunkRef pool ignored r with
      | Except.error e =>
        let me := ev.maybeEvict false
        { error := some e, events := [],
          evictorOps := [TEvictorOp.maybeEvictOp false],
          advisories := me.2.toList }
      | Except.ok evs =>
        let me := ev.maybeEvict false
        let rest := doLoop pool ignored rs me.1
        { error := rest.error, events := evs ++ rest.events,
          evictorOps := TEvictorOp.maybeEvictOp false :: rest.evictorOps,
          advisories := me.2.toList ++ rest.advisories }

/-- TCBQuantizedDataLoader::Do: announce Start (with the 32-bit
truncated object count), run the gather-sort-evict-dispatch loop with
the evictor constructed at threshold 1 <<< 24 bytes, and call Finish
when the loop completed without error (the auxiliary group-weights,
pairs and baseline loading between the loop and Finish is performed by
external collaborators and is not part of this embedding). -/
def loaderDo (pool : TQuantizedPool) (callerIgnoredFeatures : List Nat) : TDoStepLog :=
  let ignored := callerIgnoredFeatures ++ pool.ignoredFlatIndices
  let log := doLoop pool ignored (gatherAndSortChunks pool)
    (TSequentialChunkEvictor.initial (2 ^ 24))
  { log with
    events := TVisitorEvent.start (pool.documentCount % 4294967296) ::
      (log.events ++ (match log.error with
        | none => [TVisitorEvent.finish]
        | some _ => [])) }

/-- A path argument of the loader: whether it was set (Inited) and
whether the pointed-to resource is present.  Modelled from the spec:
CheckExists is an external existence checker, summarised by the
present flag. -/
structure TPathWithScheme where
  inited : Bool
  present : Bool
deriving DecidableEq, Repr

/-- The successfully constructed loader state. -/
structure TCBQuantizedDataLoader where
  objectCount : Nat
  isFeatureIgnoredList : List Nat
  pool : TQuantizedPool
  pairsPath : TPathWithScheme
  groupWeightsPath : TPathWithScheme
  baselinePath : TPathWithScheme
deriving DecidableEq, Repr

/-- The constructor TCBQuantizedDataLoader::TCBQuantizedDataLoader.
The CB_ENSURE checks run in source order: non-zero document count,
document count within the 32-bit unsigned range (after which the count
is cast to ui32, modelled as reduction modulo 2 to the 32nd), existence
of each inited auxiliary path, then positivity of the feature count.
featureCount stands for DataMetaInfo.GetFeatureCount(), whose
computation (GetDataMetaInfo) is external to this file and is modelled
from the spec as a parameter.  No consumer call is made here: the
constructor only validates and records state. -/
def loaderCtor (pool : TQuantizedPool)
    (pairsPath groupWeightsPath baselinePath : TPathWithScheme)
    (callerIgnoredFeatures : List Nat) (featureCount : Nat) :
    Except String TCBQuantizedDataLoader :=
  if ¬ (pool.documentCount > 0) then
    Except.error "Pool is empty"
  else if ¬ (pool.documentCount ≤ 4294967295) then
    Except.error "CatBoost does not support datasets with more than 4294967295 objects"
  else if pairsPath.inited && !pairsPath.present then
    Except.error "TCBQuantizedDataLoader:PairsFilePath does not exist"
  else if groupWeightsPath.inited && !groupWeightsPath.present then
    Except.error "TCBQuantizedDataLoader:GroupWeightsFilePath does not exist"
  else if baselinePath.inited && !baselinePath.present then
    Except.error "TCBQuantizedDataLoader:BaselineFilePath does not exist"
  else if ¬ (featureCount > 0) then
    Except.error "Pool should have at least one factor"
  else
    Except.ok
      { objectCount := pool.documentCount % 4294967296,
        isFeatureIgnoredList := callerIgnoredFeatures ++ pool.ignoredFlatIndices,
        pool := pool, pairsPath := pairsPath,
        groupWeightsPath := groupWeightsPath, baselinePath := baselinePath }

/-- Does the event dispatch a quantized-feature part for flat feature
index i. -/
def eventIsFeaturePartFor (i : Nat) : TVisitorEvent → Bool
  | TVisitorEvent.addFloatFeaturePart j _ _ _ _ => j == i
  | _ => false

/-- A pool whose single column has type Categ: its chunk is neither a
string pseudo-slot nor a SampleId column, so it reaches the dispatch
point of the streaming loop. -/
def categPool : TQuantizedPool :=
  { documentCount := 1,
    columnIndexToLocalIndex := [(0, 0)],
    chunks := [[⟨0, 4, 0, 8⟩]],
    columnTypes := [EColumn.Categ],
    stringDocIdLocalIndex := absentLocalIndex,
    stringGroupIdLocalIndex := absentLocalIndex,
    stringSubgroupIdLocalIndex := absentLocalIndex,
    hasStringColumns := false,
    columnsDump := [],
    ignoredFlatIndices := [],
    columnIndexToFlatIndex := [],
    columnIndexToBaselineIndex := [] }

/-- A pool that is fully materialized in memory (ColumnsDump non-empty),
with one Label column of one chunk. -/
def inMemoryPool : TQuantizedPool :=
  { documentCount := 1,
    columnIndexToLocalIndex := [(0, 0)],
    chunks := [[⟨100, 4, 0, 0⟩]],
    columnTypes := [EColumn.Label],
    stringDocIdLocalIndex := absentLocalIndex,
    stringGroupIdLocalIndex := absentLocalIndex,
    stringSubgroupIdLocalIndex := absentLocalIndex,
    hasStringColumns := true,
    columnsDump := [7],
    ignoredFlatIndices := [],
    columnIndexToFlatIndex := [],
    columnIndexToBaselineIndex := [] }

/-- A pool with a real Label column in slot 0 and a configured string
document-id pseudo-slot 1 (HasStringColumns set). -/
def stringPool : TQuantizedPool :=
  { documentCount := 1,
    columnIndexToLocalIndex := [(0, 0)],
    chunks := [[⟨0, 4, 0, 0⟩], [⟨4, 6, 0, 0⟩]],
    columnTypes := [EColumn.Label, EColumn.Text],
    stringDocIdLocalIndex := 1,
    stringGroupIdLocalIndex := absentLocalIndex,
    stringSubgroupIdLocalIndex := absentLocalIndex,
    hasStringColumns := true,
    columnsDump := [],
    ignoredFlatIndices := [],
    columnIndexToFlatIndex := [],
    columnIndexToBaselineIndex := [] }

/-- A pool with a single Num column whose flat feature index 0 is in
the pool-embedded ignored-feature list. -/
def ignoredPool : TQuantizedPool :=
  { documentCount := 1,
    columnIndexToLocalIndex := [(0, 0)],
    chunks := [[⟨0, 4, 0, 8⟩]],
    columnTypes := [EColumn.Num],
    stringDocIdLocalIndex := absentLocalIndex,
    stringGroupIdLocalIndex := absentLocalIndex,
    stringSubgroupIdLocalIndex := absentLocalIndex,
    hasStringColumns := false,
    columnsDump := [],
    ignoredFlatIndices := [0],
    columnIndexToFlatIndex := [(0, 0)],
    columnIndexToBaselineIndex := [] }

theorem TSequentialChunkEvictor.push_ok_end (s s' : TSequentialChunkEvictor) (c : TChunkRef)
    (h : s.push c = Except.ok s') :
    s'.data + s'.size = c.description.addr + c.description.size := by
  simp only [TSequentialChunkEvictor.push] at h
  split_ifs at h with hle h0 hev
  · cases h
    simp
  · cases h
    simp only
    omega
  · cases h
    simp only
    omega

theorem TSequentialChunkEvictor.push_ok_of_le (s : TSequentialChunkEvictor) (c : TChunkRef)
    (h : s.data + s.size ≤ c.description.addr) :
    ∃ s', s.push c = Except.ok s' := by
  simp only [TSequentialChunkEvictor.push]
  rw [if_pos h]
  split_ifs with h0 hev
  · exact ⟨_, rfl⟩
  · exact ⟨_, rfl⟩
  · exact ⟨_, rfl⟩

theorem TSequentialChunkEvictor.pushSeq_ok (cs : List TChunkRef)
    (hchain : cs.Chain' (fun a b => a.description.addr + a.description.size ≤ b.description.addr))
    (s : TSequentialChunkEvictor)
    (hhead : ∀ c, cs.head? = some c → s.data + s.size ≤ c.description.addr) :
    ∃ s', s.pushSeq cs = Except.ok s' := by
  induction cs generalizing s with
  | nil => exact ⟨s, rfl⟩
  | cons c cs ih =>
    obtain ⟨s1, hs1⟩ := s.push_ok_of_le c (hhead c rfl)
    have hend := TSequentialChunkEvictor.push_ok_end s s1 c hs1
    obtain ⟨s', hs'⟩ := ih hchain.tail s1 (by
      intro c2 hc2
      cases cs with
      | nil => cases hc2
      | cons d ds =>
        cases hc2
        have := (List.chain'_cons.mp hchain).1
        omega)
    exact ⟨s', by rw [TSequentialChunkEvictor.pushSeq, hs1]; exact hs'⟩

/-- C2: for every sequence of Push calls whose chunk start addresses are
non-decreasing and whose chunks do not overlap the previously visited
range (each chunk starts at or after the end of the preceding one), no
Push call fails; and a Push call fails with the internal-consistency
error exactly when the chunk's start address is strictly below the
current visited end Data_ + Size_ — there is no other success path. -/
theorem C2_push_forward_invariant :
    (∀ (m : Nat) (cs : List TChunkRef),
      cs.Chain' (fun a b => a.description.addr + a.description.size ≤ b.description.addr) →
      ∃ s', (TSequentialChunkEvictor.initial m).pushSeq cs = Except.ok s') ∧
    (∀ (s : TSequentialChunkEvictor) (c : TChunkRef),
      (c.description.addr < s.data + s.size →
        s.push c = Except.error "Data_ + Size_ <= data") ∧
      (s.data + s.size ≤ c.description.addr → ∃ s', s.push c = Except.ok s')) := by
  constructor
  · intro m cs hchain
    exact TSequentialChunkEvictor.pushSeq_ok cs hchain _
      (fun c _ => by simp [TSequentialChunkEvictor.initial])
  · intro s c
    refine ⟨fun hlt => ?_, fun h => s.push_ok_of_le c h⟩
    simp only [TSequentialChunkEvictor.push]
    rw [if_neg (by omega)]

theorem C2_push_forward_invariant_witness :
    (∃ s', (TSequentialChunkEvictor.initial 5).pushSeq
        [⟨⟨10, 5, 0, 0⟩, 0, 0⟩, ⟨⟨20, 3, 0, 0⟩, 0, 0⟩] = Except.ok s') ∧
    TSequentialChunkEvictor.push ⟨5, false, 10, 5⟩ ⟨⟨12, 1, 0, 0⟩, 0, 0⟩ =
      Except.error "Data_ + Size_ <= data" :=
  ⟨C2_push_forward_invariant.1 5 _ (by norm_num [List.chain'_cons]),
   (C2_push_forward_invariant.2 ⟨5, false, 10, 5⟩ ⟨⟨12, 1, 0, 0⟩, 0, 0⟩).1 (by decide)⟩

/-- C3: MaybeEvict(false) is a no-op while the one-shot flag is set or
the visited length is below the threshold; otherwise it issues the
advisory over the visited range, sets the flag, and does so exactly
once per visited span (after it fires, every further call is a no-op
until a Push clears the flag); MaybeEvict(true) always issues the
advisory when the flag is unset, regardless of span length, and at the
never-pushed initial state the advised range is the zero-length range
at the null address, so the forced flush covers nothing exactly then;
the streaming loop constructs the evictor with threshold 2 to the 24th,
that is 16 MiB. -/
theorem C3_maybeEvict_threshold (s : TSequentialChunkEvictor) :
    (∀ force, s.evicted = true → s.maybeEvict force = (s, none)) ∧
    (s.evicted = false → s.size < s.minSizeInBytesToEvict →
      s.maybeEvict false = (s, none)) ∧
    (s.evicted = false → s.minSizeInBytesToEvict ≤ s.size →
      s.maybeEvict false = ({ s with evicted := true }, some (s.data, s.size))) ∧
    (s.evicted = false →
      s.maybeEvict true = ({ s with evicted := true }, some (s.data, s.size))) ∧
    (∀ force force2 s1 range, s.maybeEvict force = (s1, some range) →
      s1.maybeEvict force2 = (s1, none)) ∧
    (∀ c s', s.push c = Except.ok s' → s'.evicted = false) ∧
    (∀ m, (TSequentialChunkEvictor.initial m).maybeEvict true =
      ({ TSequentialChunkEvictor.initial m with evicted := true }, some (0, 0))) ∧
    TSequentialChunkEvictor.initial (2 ^ 24) =
      TSequentialChunkEvictor.initial (16 * 1024 * 1024) := by
  refine ⟨?_, ?_, ?_, ?_, ?_, ?_, ?_, rfl⟩
  · intro force hev
    simp [TSequentialChunkEvictor.maybeEvict, hev]
  · intro hev hlt
    simp [TSequentialChunkEvictor.maybeEvict, hev, hlt]
  · intro hev hge
    simp [TSequentialChunkEvictor.maybeEvict, hev, Nat.not_lt.mpr hge]
  · intro hev
    simp [TSequentialChunkEvictor.maybeEvict, hev]
  · intro force force2 s1 range h
    simp only [TSequentialChunkEvictor.maybeEvict] at h
    split_ifs at h with hguard
    · cases h
    · have hs1 : s1 = { s with evicted := true } := by
        cases h
        rfl
      subst hs1
      simp [TSequentialChunkEvictor.maybeEvict]
  · intro c s' h
    simp only [TSequentialChunkEvictor.push] at h
    split_ifs at h with hle h0 hev
    · cases h
      rfl
    · cases h
      rfl
    · cases h
      rfl
  · intro m
    simp [TSequentialChunkEvictor.maybeEvict, TSequentialChunkEvictor.initial]

theorem C3_maybeEvict_threshold_witness :
    TSequentialChunkEvictor.maybeEvict ⟨100, false, 5, 200⟩ false =
      (⟨100, true, 5, 200⟩, some (5, 200)) :=
  (C3_maybeEvict_threshold ⟨100, false, 5, 200⟩).2.2.1 rfl (by decide)

/-- C4 counterexample: after an eviction of the visited range
[100, 110), pushing the chunk at address 120 of size 5 resets the
visited base to the previous visited end 110 — not to the chunk's start
120 as the claim states — with length 15 covering the gap plus the
chunk. -/
theorem C4_counterexample :
    TSequentialChunkEvictor.push ⟨16, true, 100, 10⟩ ⟨⟨120, 5, 0, 0⟩, 0, 0⟩ =
      Except.ok ⟨16, false, 110, 15⟩ ∧
    TSequentialChunkEvictor.push ⟨16, true, 100, 10⟩ ⟨⟨120, 5, 0, 0⟩, 0, 0⟩ ≠
      Except.ok ⟨16, false, 120, 15⟩ := by
  constructor
  · decide
  · decide


/-- C4 (amended): under the forward-address precondition, a Push onto
the null (never-pushed) visited base makes the visited range exactly
the chunk's byte range; when the one-shot eviction flag is set, the
visited range is reset to start at the previous visited end (not at the
chunk) and its length covers any gap plus the chunk's length; otherwise
the base is kept and the length grows to cover any gap plus the chunk;
in every successful case the new visited end is the chunk's end. -/
theorem C4_push_update (s : TSequentialChunkEvictor) (c : TChunkRef)
    (h : s.data + s.size ≤ c.description.addr) :
    (s.data = 0 → s.push c = Except.ok
      ⟨s.minSizeInBytesToEvict, false, c.description.addr, c.description.size⟩) ∧
    (s.data ≠ 0 → s.evicted = true → s.push c = Except.ok
      ⟨s.minSizeInBytesToEvict, false, s.data + s.size,
        c.description.addr - (s.data + s.size) + c.description.size⟩) ∧
    (s.data ≠ 0 → s.evicted = false → s.push c = Except.ok
      ⟨s.minSizeInBytesToEvict, false, s.data,
        c.description.addr - s.data + c.description.size⟩) ∧
    (∀ s', s.push c = Except.ok s' →
      s'.data + s'.size = c.description.addr + c.description.size) := by
  refine ⟨?_, ?_, ?_, fun s' hs' => TSequentialChunkEvictor.push_ok_end s s' c hs'⟩
  · intro h0
    simp only [TSequentialChunkEvictor.push]
    rw [if_pos h, if_pos h0]
  · intro h0 hev
    simp only [TSequentialChunkEvictor.push]
    rw [if_pos h, if_neg h0, if_pos hev]
  · intro h0 hev
    simp only [TSequentialChunkEvictor.push]
    rw [if_pos h, if_neg h0, if_neg (by simp [hev])]

theorem C4_push_update_witness :
    TSequentialChunkEvictor.push ⟨16, true, 100, 10⟩ ⟨⟨120, 5, 0, 1⟩, 0, 0⟩ =
      Except.ok ⟨16, false, 110, 15⟩ :=
  (C4_push_update ⟨16, true, 100, 10⟩ ⟨⟨120, 5, 0, 1⟩, 0, 0⟩ (by decide)).2.1 (by decide) rfl

/-- C6: for every pool, the gathered sequence contains exactly one
entry for every chunk of every real column slot plus every chunk of
each configured string pseudo-slot (local index not the absent
sentinel) — it is a permutation of those records — and it is sorted by
non-decreasing start address of the chunks' byte-range payloads. -/
theorem C6_gather_sorted_and_complete (pool : TQuantizedPool) :
    (gatherAndSortChunks pool).Sorted chunkRefLE ∧
    (gatherAndSortChunks pool).Perm (realChunkRefs pool ++ fakeChunkRefs pool) :=
  ⟨List.sorted_insertionSort chunkRefLE _, List.perm_insertionSort chunkRefLE _⟩

/-- C1 counterexample: a chunk of a Categ column reaches the dispatch
point (it is neither a string pseudo-slot nor a SampleId column), yet
the streaming assertion admits it even though Categ is not one of the
seven dispatchable types of the claim: the fatal error is raised only
later inside the dispatcher, with the dispatcher's message rather than
the streaming assertion's. -/
theorem C1_counterexample :
    processChunkRef categPool [] ⟨⟨0, 4, 0, 8⟩, 0, 0⟩ =
      Except.error unexpectedColumnTypeMsg ∧
    unexpectedColumnTypeMsg ≠ expectedTypesMsg := by
  constructor
  · rfl
  · decide

theorem addChunk_ne_streamAssertError (chunk : TChunkDescription) (t : EColumn)
    (fIdx bIdx : Option Nat) :
    addChunk chunk t fIdx bIdx ≠ Except.error expectedTypesMsg := by
  cases t <;> cases fIdx <;> cases bIdx <;>
    simp [addChunk, expectedTypesMsg, unexpectedColumnTypeMsg,
      nullFlatFeatureIdxMsg, nullBaselineIdxMsg]

theorem processChunkRef_dispatch (pool : TQuantizedPool) (ignored : List Nat)
    (r : TChunkRef) (hs : isStringColumnB pool r.localIndex = false)
    (hd : pool.columnTypes.getD r.localIndex EColumn.Auxiliary ≠ EColumn.SampleId)
    (hadm : pool.columnTypes.getD r.localIndex EColumn.Auxiliary = EColumn.Num ∨
      pool.columnTypes.getD r.localIndex EColumn.Auxiliary = EColumn.Baseline ∨
      pool.columnTypes.getD r.localIndex EColumn.Auxiliary = EColumn.Label ∨
      pool.columnTypes.getD r.localIndex EColumn.Auxiliary = EColumn.Categ ∨
      pool.columnTypes.getD r.localIndex EColumn.Auxiliary = EColumn.Weight ∨
      pool.columnTypes.getD r.localIndex EColumn.Auxiliary = EColumn.GroupWeight ∨
      pool.columnTypes.getD r.localIndex EColumn.Auxiliary = EColumn.GroupId ∨
      pool.columnTypes.getD r.localIndex EColumn.Auxiliary = EColumn.SubgroupId) :
    processChunkRef pool ignored r =
      if ignoredSkipB pool ignored r.columnIndex then Except.ok []
      else addChunk r.description (pool.columnTypes.getD r.localIndex EColumn.Auxiliary)
        (findPtr pool.columnIndexToFlatIndex r.columnIndex)
        (findPtr pool.columnIndexToBaselineIndex r.columnIndex) := by
  simp only [processChunkRef, hs, Bool.false_eq_true, if_false]
  rw [if_neg hd, if_neg (not_not_intro hadm)]

theorem processChunkRef_assertError (pool : TQuantizedPool) (ignored : List Nat)
    (r : TChunkRef) (hs : isStringColumnB pool r.localIndex = false)
    (hd : pool.columnTypes.getD r.localIndex EColumn.Auxiliary ≠ EColumn.SampleId)
    (hnadm : ¬ (pool.columnTypes.getD r.localIndex EColumn.Auxiliary = EColumn.Num ∨
      pool.columnTypes.getD r.localIndex EColumn.Auxiliary = EColumn.Baseline ∨
      pool.columnTypes.getD r.localIndex EColumn.Auxiliary = EColumn.Label ∨
      pool.columnTypes.getD r.localIndex EColumn.Auxiliary = EColumn.Categ ∨
      pool.columnTypes.getD r.localIndex EColumn.Auxiliary = EColumn.Weight ∨
      pool.columnTypes.getD r.localIndex EColumn.Auxiliary = EColumn.GroupWeight ∨
      pool.columnTypes.getD r.localIndex EColumn.Auxiliary = EColumn.GroupId ∨
      pool.columnTypes.getD r.localIndex EColumn.Auxiliary = EColumn.SubgroupId)) :
    processChunkRef pool ignored r = Except.error expectedTypesMsg := by
  simp only [processChunkRef, hs, Bool.false_eq_true, if_false]
  rw [if_neg hd, if_pos hnadm]

/-- C1 (amended): for a chunk that reaches the dispatch point (not a
string pseudo-slot, resolved type not the legacy SampleId), the
streaming assertion admits exactly eight resolved types — the seven
dispatchable ones plus Categ.  A resolved type outside these eight
fails at the streaming assertion with its format error; a type among
the eight never produces the streaming-assertion error; and a Categ
chunk that is not skipped by the ignored-feature filter fails only
later, inside the dispatcher, with the dispatcher's distinct error. -/
theorem C1_dispatch_assertion (pool : TQuantizedPool) (ignored : List Nat)
    (r : TChunkRef) (hs : isStringColumnB pool r.localIndex = false)
    (hd : pool.columnTypes.getD r.localIndex EColumn.Auxiliary ≠ EColumn.SampleId) :
    (pool.columnTypes.getD r.localIndex EColumn.Auxiliary ∉
        [EColumn.Num, EColumn.Baseline, EColumn.Label, EColumn.Categ, EColumn.Weight,
          EColumn.GroupWeight, EColumn.GroupId, EColumn.SubgroupId] →
      processChunkRef pool ignored r = Except.error expectedTypesMsg) ∧
    (pool.columnTypes.getD r.localIndex EColumn.Auxiliary ∈
        [EColumn.Num, EColumn.Baseline, EColumn.Label, EColumn.Categ, EColumn.Weight,
          EColumn.GroupWeight, EColumn.GroupId, EColumn.SubgroupId] →
      processChunkRef pool ignored r ≠ Except.error expectedTypesMsg) ∧
    (pool.columnTypes.getD r.localIndex EColumn.Auxiliary = EColumn.Categ →
      ignoredSkipB pool ignored r.columnIndex = false →
      processChunkRef pool ignored r = Except.error unexpectedColumnTypeMsg) := by
  refine ⟨?_, ?_, ?_⟩
  · intro hnotin
    refine processChunkRef_assertError pool ignored r hs hd ?_
    simp only [List.mem_cons, List.not_mem_nil, or_false] at hnotin
    exact fun hor => hnotin hor
  · intro hin
    have hadm : pool.columnTypes.getD r.localIndex EColumn.Auxiliary = EColumn.Num ∨
        pool.columnTypes.getD r.localIndex EColumn.Auxiliary = EColumn.Baseline ∨
        pool.columnTypes.getD r.localIndex EColumn.Auxiliary = EColumn.Label ∨
        pool.columnTypes.getD r.localIndex EColumn.Auxiliary = EColumn.Categ ∨
        pool.columnTypes.getD r.localIndex EColumn.Auxiliary = EColumn.Weight ∨
        pool.columnTypes.getD r.localIndex EColumn.Auxiliary = EColumn.GroupWeight ∨
        pool.columnTypes.getD r.localIndex EColumn.Auxiliary = EColumn.GroupId ∨
        pool.columnTypes.getD r.localIndex EColumn.Auxiliary = EColumn.SubgroupId := by
      simpa [List.mem_cons] using hin
    rw [processChunkRef_dispatch pool ignored r hs hd hadm]
    split_ifs with hskip
    · intro hcon
      cases hcon
    · exact addChunk_ne_streamAssertError _ _ _ _
  · intro hcateg hskip
    have hadm : pool.columnTypes.getD r.localIndex EColumn.Auxiliary = EColumn.Num ∨
        pool.columnTypes.getD r.localIndex EColumn.Auxiliary = EColumn.Baseline ∨
        pool.columnTypes.getD r.localIndex EColumn.Auxiliary = EColumn.Label ∨
        pool.columnTypes.getD r.localIndex EColumn.Auxiliary = EColumn.Categ ∨
        pool.columnTypes.getD r.localIndex EColumn.Auxiliary = EColumn.Weight ∨
        pool.columnTypes.getD r.localIndex EColumn.Auxiliary = EColumn.GroupWeight ∨
        pool.columnTypes.getD r.localIndex EColumn.Auxiliary = EColumn.GroupId ∨
        pool.columnTypes.getD r.localIndex EColumn.Auxiliary = EColumn.SubgroupId := by
      exact Or.inr (Or.inr (Or.inr (Or.inl hcateg)))
    rw [processChunkRef_dispatch pool ignored r hs hd hadm]
    rw [if_neg (by simp [hskip]), hcateg]
    rfl

theorem C1_dispatch_assertion_witness :
    processChunkRef categPool [] ⟨⟨0, 4, 0, 8⟩, 0, 0⟩ =
      Except.error unexpectedColumnTypeMsg :=
  (C1_dispatch_assertion categPool [] ⟨⟨0, 4, 0, 8⟩, 0, 0⟩ rfl
    (by decide)).2.2 rfl rfl

/-- C9: in a pool where the string pseudo-slots are configured
(HasStringColumns set), every gathered chunk whose local slot index
equals one of the three string-identifier pseudo-slot indices is
skipped by the streaming loop: processing it yields no error and no
consumer event, and it never reaches AddChunk. -/
theorem C9_string_pseudo_slot_skipped (pool : TQuantizedPool) (ignored : List Nat)
    (r : TChunkRef) (hcfg : pool.hasStringColumns = true)
    (hidx : r.localIndex = pool.stringDocIdLocalIndex ∨
      r.localIndex = pool.stringGroupIdLocalIndex ∨
      r.localIndex = pool.stringSubgroupIdLocalIndex) :
    processChunkRef pool ignored r = Except.ok [] := by
  have hb : isStringColumnB pool r.localIndex = true := by
    rcases hidx with h | h | h <;> simp [isStringColumnB, hcfg, h]
  simp [processChunkRef, hb]

theorem C9_string_pseudo_slot_skipped_witness :
    processChunkRef stringPool [] ⟨⟨4, 6, 0, 0⟩, 0, 1⟩ = Except.ok [] :=
  C9_string_pseudo_slot_skipped stringPool [] ⟨⟨4, 6, 0, 0⟩, 0, 1⟩ rfl (Or.inl rfl)

/-- C10: the dispatcher dereferences the optional index pointers for
exactly two types — Num reads flatFeatureIdx and Baseline reads
baselineIdx, unconditionally (an absent index is a null dereference,
modelled as the corresponding error); with the index present both
dispatch successfully; and for Label, Weight, GroupWeight, GroupId and
SubgroupId the result is independent of both indices (an absent index
is accepted and never read) and always succeeds. -/
theorem C10_dispatcher_index_usage (chunk : TChunkDescription) (fIdx bIdx : Option Nat) :
    (addChunk chunk EColumn.Num none bIdx = Except.error nullFlatFeatureIdxMsg) ∧
    (∀ i, addChunk chunk EColumn.Num (some i) bIdx =
      Except.ok [addQuantizedFeatureChunk chunk i]) ∧
    (addChunk chunk EColumn.Baseline fIdx none = Except.error nullBaselineIdxMsg) ∧
    (∀ b, addChunk chunk EColumn.Baseline fIdx (some b) =
      Except.ok [TVisitorEvent.addBaselinePart chunk.documentOffset b chunk.addr chunk.size]) ∧
    (∀ t, t ∈ [EColumn.Label, EColumn.Weight, EColumn.GroupWeight,
        EColumn.GroupId, EColumn.SubgroupId] →
      addChunk chunk t fIdx bIdx = addChunk chunk t none none ∧
      ∃ evs, addChunk chunk t fIdx bIdx = Except.ok evs) := by
  refine ⟨rfl, fun i => rfl, rfl, fun b => rfl, ?_⟩
  intro t ht
  fin_cases ht <;> exact ⟨rfl, _, rfl⟩

theorem C10_dispatcher_index_usage_witness :
    addChunk ⟨1, 2, 3, 4⟩ EColumn.Label (some 9) (some 8) =
      addChunk ⟨1, 2, 3, 4⟩ EColumn.Label none none :=
  ((C10_dispatcher_index_usage ⟨1, 2, 3, 4⟩ (some 9) (some 8)).2.2.2.2
    EColumn.Label (by decide)).1

/-- C7: loader construction fails fatally, before any streaming or
consumer call, when the document count is zero, when it exceeds the
32-bit unsigned maximum, or when a configured auxiliary path (pairs,
group weights, baseline) does not point to an existing resource; these
checks run eagerly in the constructor, and on success the document
count — which fits 32 bits — is truncated to 32 bits (identically) for
all downstream use. -/
theorem C7_ctor_validation (pool : TQuantizedPool)
    (pp gwp bp : TPathWithScheme) (ci : List Nat) (fc : Nat) :
    (pool.documentCount = 0 →
      loaderCtor pool pp gwp bp ci fc = Except.error "Pool is empty") ∧
    (4294967295 < pool.documentCount →
      loaderCtor pool pp gwp bp ci fc = Except.error
        "CatBoost does not support datasets with more than 4294967295 objects") ∧
    (0 < pool.documentCount → pool.documentCount ≤ 4294967295 →
      pp.inited = true → pp.present = false →
      loaderCtor pool pp gwp bp ci fc = Except.error
        "TCBQuantizedDataLoader:PairsFilePath does not exist") ∧
    (0 < pool.documentCount → pool.documentCount ≤ 4294967295 →
      (pp.inited && !pp.present) = false → gwp.inited = true → gwp.present = false →
      loaderCtor pool pp gwp bp ci fc = Except.error
        "TCBQuantizedDataLoader:GroupWeightsFilePath does not exist") ∧
    (0 < pool.documentCount → pool.documentCount ≤ 4294967295 →
      (pp.inited && !pp.present) = false → (gwp.inited && !gwp.present) = false →
      bp.inited = true → bp.present = false →
      loaderCtor pool pp gwp bp ci fc = Except.error
        "TCBQuantizedDataLoader:BaselineFilePath does not exist") ∧
    (0 < pool.documentCount → pool.documentCount ≤ 4294967295 →
      (pp.inited && !pp.present) = false → (gwp.inited && !gwp.present) = false →
      (bp.inited && !bp.present) = false → 0 < fc →
      loaderCtor pool pp gwp bp ci fc = Except.ok
        ⟨pool.documentCount, ci ++ pool.ignoredFlatIndices, pool, pp, gwp, bp⟩) := by
  refine ⟨?_, ?_, ?_, ?_, ?_, ?_⟩
  · intro h0
    simp only [loaderCtor]
    rw [if_pos (by omega)]
  · intro hbig
    simp only [loaderCtor]
    rw [if_neg (by omega), if_pos (by omega)]
  · intro hpos hle hi hp
    simp only [loaderCtor]
    rw [if_neg (by omega), if_neg (by omega), if_pos (by simp [hi, hp])]
  · intro hpos hle hpok hi hp
    simp only [loaderCtor]
    rw [if_neg (by omega), if_neg (by omega), if_neg (by simp [hpok]),
      if_pos (by simp [hi, hp])]
  · intro hpos hle hpok hgok hi hp
    simp only [loaderCtor]
    rw [if_neg (by omega), if_neg (by omega), if_neg (by simp [hpok]),
      if_neg (by simp [hgok]), if_pos (by simp [hi, hp])]
  · intro hpos hle hpok hgok hbok hfc
    simp only [loaderCtor]
    rw [if_neg (by omega), if_neg (by omega), if_neg (by simp [hpok]),
      if_neg (by simp [hgok]), if_neg (by simp [hbok]), if_neg (by omega)]
    have hmod : pool.documentCount % 4294967296 = pool.documentCount :=
      Nat.mod_eq_of_lt (by omega)
    rw [hmod]

theorem C7_ctor_validation_witness :
    loaderCtor categPool ⟨false, false⟩ ⟨false, false⟩ ⟨false, false⟩ [] 1 =
      Except.ok ⟨1, [], categPool, ⟨false, false⟩, ⟨false, false⟩, ⟨false, false⟩⟩ ∧
    loaderCtor inMemoryPool ⟨true, false⟩ ⟨false, false⟩ ⟨false, false⟩ [] 1 =
      Except.error "TCBQuantizedDataLoader:PairsFilePath does not exist" :=
  ⟨(C7_ctor_validation categPool ⟨false, false⟩ ⟨false, false⟩ ⟨false, false⟩ [] 1).2.2.2.2.2
      (by decide) (by decide) rfl rfl rfl (by decide),
   (C7_ctor_validation inMemoryPool ⟨true, false⟩ ⟨false, false⟩ ⟨false, false⟩ [] 1).2.2.1
      (by decide) (by decide) rfl rfl⟩

theorem maybeEvict_fst_range (s : TSequentialChunkEvictor) (force : Bool) :
    (s.maybeEvict force).1.data = s.data ∧ (s.maybeEvict force).1.size = s.size := by
  simp only [TSequentialChunkEvictor.maybeEvict]
  split_ifs <;> exact ⟨rfl, rfl⟩

theorem maybeEvict_snd_range (s : TSequentialChunkEvictor) (force : Bool)
    (a : Nat × Nat) (ha : a ∈ (s.maybeEvict force).2.toList) : a = (s.data, s.size) := by
  simp only [TSequentialChunkEvictor.maybeEvict] at ha
  split_ifs at ha
  · simp at ha
  · simp at ha
    exact ha

theorem doLoop_inmemory (pool : TQuantizedPool) (ignored : List Nat)
    (hdump : pool.columnsDump.isEmpty = false) (refs : List TChunkRef) :
    ∀ s : TSequentialChunkEvictor, s.data = 0 → s.size = 0 →
      (∀ op ∈ (doLoop pool ignored refs s).evictorOps, ∀ r, op ≠ TEvictorOp.push r) ∧
      (∀ a ∈ (doLoop pool ignored refs s).advisories, a = (0, 0)) := by
  induction refs with
  | nil =>
    intro s hd hsz
    constructor
    · intro op hop r
      simp only [doLoop] at hop
      simp at hop
      subst hop
      intro hcon
      cases hcon
    · intro a ha
      simp only [doLoop] at ha
      have := maybeEvict_snd_range s true a ha
      rw [hd, hsz] at this
      exact this
  | cons r rs ih =>
    intro s hd hsz
    have hnotmap : ¬ (pool.columnsDump.isEmpty = true) := by simp [hdump]
    constructor
    · intro op hop r2
      simp only [doLoop] at hop
      rw [if_neg hnotmap] at hop
      cases hpr : processChunkRef pool ignored r with
      | error msg =>
        rw [hpr] at hop
        simp at hop
        subst hop
        intro hcon
        cases hcon
      | ok evs =>
        rw [hpr] at hop
        simp only [List.mem_cons] at hop
        rcases hop with h1 | h2
        · subst h1
          intro hcon
          cases hcon
        · have hpres := maybeEvict_fst_range s false
          exact (ih (s.maybeEvict false).1 (by rw [hpres.1, hd]) (by rw [hpres.2, hsz])).1
            op h2 r2
    · intro a ha
      simp only [doLoop] at ha
      rw [if_neg hnotmap] at ha
      cases hpr : processChunkRef pool ignored r with
      | error msg =>
        rw [hpr] at ha
        have := maybeEvict_snd_range s false a ha
        rw [hd, hsz] at this
        exact this
      | ok evs =>
        rw [hpr] at ha
        simp only [List.mem_append] at ha
        rcases ha with h1 | h2
        · have := maybeEvict_snd_range s false a h1
          rw [hd, hsz] at this
          exact this
        · have hpres := maybeEvict_fst_range s false
          exact (ih (s.maybeEvict false).1 (by rw [hpres.1, hd]) (by rw [hpres.2, hsz])).2
            a h2

/-- C5 counterexample: for a pool that is fully materialized in memory
(non-empty ColumnsDump), the streaming loop still calls
MaybeEvict(false) for its chunk and the forced MaybeEvict(true) flush
afterwards — the claim that the eviction machinery is skipped entirely
(no maybe_evict calls at all) is false; only the Push is skipped. -/
theorem C5_counterexample :
    (loaderDo inMemoryPool []).evictorOps =
      [TEvictorOp.maybeEvictOp false, TEvictorOp.maybeEvictOp true] ∧
    (loaderDo inMemoryPool []).evictorOps ≠ [] := by
  constructor
  · rfl
  · intro hcon
    have h1 : (loaderDo inMemoryPool []).evictorOps =
        [TEvictorOp.maybeEvictOp false, TEvictorOp.maybeEvictOp true] := rfl
    rw [h1] at hcon
    cases hcon

/-- C5 (amended): when the pool is fully materialized in memory, only
the Push step of the eviction machinery is skipped: the per-chunk
MaybeEvict(false) and the final forced MaybeEvict(true) still run, but
because nothing is ever pushed the visited range stays the zero-length
null range, so every advisory the evictor could issue covers the empty
range (0, 0) — no backing page is ever advised away. -/
theorem C5_inmemory_only_push_skipped (pool : TQuantizedPool) (ignored : List Nat)
    (hdump : pool.columnsDump.isEmpty = false) :
    (∀ op ∈ (loaderDo pool ignored).evictorOps, ∀ r, op ≠ TEvictorOp.push r) ∧
    (∀ a ∈ (loaderDo pool ignored).advisories, a = (0, 0)) := by
  have h := doLoop_inmemory pool (ignored ++ pool.ignoredFlatIndices) hdump
    (gatherAndSortChunks pool) (TSequentialChunkEvictor.initial (2 ^ 24)) rfl rfl
  simp only [loaderDo]
  exact h

theorem C5_inmemory_only_push_skipped_witness :
    TEvictorOp.maybeEvictOp true ≠ TEvictorOp.push ⟨⟨100, 4, 0, 0⟩, 0, 0⟩ :=
  (C5_inmemory_only_push_skipped inMemoryPool [] rfl).1
    (TEvictorOp.maybeEvictOp true) (by decide) ⟨⟨100, 4, 0, 0⟩, 0, 0⟩

theorem addChunk_feature_some (chunk : TChunkDescription) (t : EColumn)
    (fIdx bIdx : Option Nat) (evs : List TVisitorEvent) (e : TVisitorEvent) (i : Nat)
    (h : addChunk chunk t fIdx bIdx = Except.ok evs) (he : e ∈ evs)
    (hfe : eventIsFeaturePartFor i e = true) : fIdx = some i := by
  cases t <;> simp only [addChunk] at h
  case Num =>
    cases fIdx with
    | none => cases h
    | some j =>
      cases h
      simp only [List.mem_singleton] at he
      subst he
      simp only [addQuantizedFeatureChunk, eventIsFeaturePartFor, beq_iff_eq] at hfe
      rw [hfe]
  case Label =>
    cases h
    simp only [List.mem_singleton] at he
    subst he
    simp [eventIsFeaturePartFor] at hfe
  case Baseline =>
    cases bIdx with
    | none => cases h
    | some b =>
      cases h
      simp only [List.mem_singleton] at he
      subst he
      simp [eventIsFeaturePartFor] at hfe
  case Weight =>
    cases h
    simp only [List.mem_singleton] at he
    subst he
    simp [eventIsFeaturePartFor] at hfe
  case GroupWeight =>
    cases h
    simp only [List.mem_singleton] at he
    subst he
    simp [eventIsFeaturePartFor] at hfe
  case GroupId =>
    cases h
    simp only [List.mem_singleton] at he
    subst he
    simp [eventIsFeaturePartFor] at hfe
  case SubgroupId =>
    cases h
    simp only [List.mem_singleton] at he
    subst he
    simp [eventIsFeaturePartFor] at hfe
  case Categ => cases h
  case Auxiliary => cases h
  case SampleId => cases h
  case Timestamp => cases h
  case Sparse => cases h
  case Prediction => cases h
  case Text => cases h

theorem processChunkRef_no_ignored_feature (pool : TQuantizedPool) (ignored : List Nat)
    (r : TChunkRef) (evs : List TVisitorEvent)
    (h : processChunkRef pool ignored r = Except.ok evs) (i : Nat)
    (hi : isFeatureIgnored ignored i = true) (e : TVisitorEvent) (he : e ∈ evs) :
    eventIsFeaturePartFor i e = false := by
  cases hx : eventIsFeaturePartFor i e with
  | false => rfl
  | true =>
    exfalso
    simp only [processChunkRef] at h
    split_ifs at h with h1 h2 h3 h4
    · cases h
      simp at he
    · cases h
      simp at he
    · cases h
      simp at he
    · have hsome := addChunk_feature_some r.description
        (pool.columnTypes.getD r.localIndex EColumn.Auxiliary)
        (findPtr pool.columnIndexToFlatIndex r.columnIndex)
        (findPtr pool.columnIndexToBaselineIndex r.columnIndex) evs e i h he hx
      rw [ignoredSkipB, hsome] at h4
      simp only [] at h4
      exact h4 hi

theorem doLoop_event_source (pool : TQuantizedPool) (ignored : List Nat) :
    ∀ (refs : List TChunkRef) (ev : TSequentialChunkEvictor) (e : TVisitorEvent),
      e ∈ (doLoop pool ignored refs ev).events →
      ∃ r evs, processChunkRef pool ignored r = Except.ok evs ∧ e ∈ evs := by
  intro refs
  induction refs with
  | nil =>
    intro ev e he
    simp only [doLoop] at he
    simp at he
  | cons r rs ih =>
    intro ev e he
    simp only [doLoop] at he
    split_ifs at he with hdump
    · cases hp : ev.push r with
      | error msg =>
        rw [hp] at he
        simp at he
      | ok ev1 =>
        rw [hp] at he
        cases hpr : processChunkRef pool ignored r with
        | error msg =>
          rw [hpr] at he
          simp at he
        | ok evs =>
          rw [hpr] at he
          simp only [List.mem_append] at he
          rcases he with h1 | h2
          · exact ⟨r, evs, hpr, h1⟩
          · exact ih _ e h2
    · cases hpr : processChunkRef pool ignored r with
      | error msg =>
        rw [hpr] at he
        simp at he
      | ok evs =>
        rw [hpr] at he
        simp only [List.mem_append] at he
        rcases he with h1 | h2
        · exact ⟨r, evs, hpr, h1⟩
        · exact ih _ e h2

/-- C8: a feature index present in the caller-supplied ignored-feature
list or in the pool-embedded ignored-feature list never reaches the
consumer as a quantized-feature part: no event of the whole streaming
run dispatches a feature part for that flat index. -/
theorem C8_ignored_feature_never_dispatched (pool : TQuantizedPool)
    (callerIgnoredFeatures : List Nat) (i : Nat)
    (hi : i ∈ callerIgnoredFeatures ++ pool.ignoredFlatIndices) :
    ∀ e ∈ (loaderDo pool callerIgnoredFeatures).events,
      eventIsFeaturePartFor i e = false := by
  intro e he
  simp only [loaderDo, List.mem_cons] at he
  rcases he with h0 | h1
  · subst h0
    rfl
  · rcases List.mem_append.mp h1 with h2 | h3
    · obtain ⟨r, evs, hok, hin⟩ := doLoop_event_source pool
        (callerIgnoredFeatures ++ pool.ignoredFlatIndices) _ _ e h2
      exact processChunkRef_no_ignored_feature pool _ r evs hok i
        (by simp [isFeatureIgnored, hi]) e hin
    · cases herr : (doLoop pool (callerIgnoredFeatures ++ pool.ignoredFlatIndices)
          (gatherAndSortChunks pool) (TSequentialChunkEvictor.initial (2 ^ 24))).error with
      | none =>
        rw [herr] at h3
        simp at h3
        subst h3
        rfl
      | some msg =>
        rw [herr] at h3
        simp at h3

theorem C8_ignored_feature_never_dispatched_witness :
    eventIsFeaturePartFor 0 TVisitorEvent.finish = false :=
  C8_ignored_feature_never_dispatched ignoredPool [] 0 (by decide)
    TVisitorEvent.finish (by decide)
